import Mathlib

/-!
Shallow embedding of ladnir/poly: a small-buffer-optimized owning polymorphic
pointer, realized twice (src/unique_ptr.h, namespace `poly`, virtual dispatch;
src/unique_ptr_v2.h, namespace `poly_v2`, hand-carried function-pointer table).

Modeling conventions:
* A C++ concrete type is a `CType`: a `typeid` identity, a `sizeof`, and the
  list of ids of its (public, unambiguous) base classes, used for the
  `dynamic_cast` in `poly_v2::unique_ptr::release`.
* A live object is an `Obj`: its dynamic type plus an abstract observable
  value (a `Nat`).  Move-construction transfers the value and leaves the
  moved-from object present with an unspecified value (modeled as `0`).
  Constructing a `U` from an lvalue whose dynamic type is derived from `U`
  slices: the result's dynamic type becomes `U` (`sliceTo`).
* Machine sizes are `Nat`s; `sizeof(void*)` is the constant `ptrSize = 8`;
  padding/alignment is not modeled (sizes add).
* Placement-new of an inline wrapper into storage smaller than the wrapper
  (reachable through the inverted comparison in `poly::inline_storage::move_to`)
  is a memory error in C++; the model records the abstract state the code
  logically builds there.
-/

/-- sizeof(void*) on the modeled platform. -/
def ptrSize : Nat := 8

/-- A C++ concrete type: typeid identity, sizeof, and ids of its base classes
(transitively), for `dynamic_cast`. -/
structure CType where
  id : Nat
  size : Nat
  ancestors : List Nat
deriving DecidableEq

/-- A live object: its dynamic (runtime) type and its observable value. -/
structure Obj where
  rt : CType
  val : Nat

/-- The state of an object after its value has been moved out: still present,
same dynamic type, unspecified value (modeled as 0). -/
def movedFrom (u : Obj) : Obj := ⟨u.rt, 0⟩

/-- Constructing a fresh `sty` from (an rvalue reference to) `u`: if `u`'s
dynamic type is `sty` this is an ordinary move; if it is derived from `sty`
the derived part is truncated (slicing) — either way the result's dynamic
type is `sty`. -/
def sliceTo (sty : CType) (u : Obj) : Obj := ⟨sty, u.val⟩

/-- `dynamic_cast<U*>` applied to a non-null pointer to an object of dynamic
type `rt` succeeds iff `rt` is `U` itself or publicly derived from `U`. -/
def dynCastOk (rt : CType) (target : Nat) : Bool :=
  rt.id = target ∨ target ∈ rt.ancestors

namespace poly

/-- The three implementations of `poly::storage_concept<T>` that can live in a
container's `_storage`, identified by the constructed object's dynamic type:
`empty_storage<T>`, `inline_storage<U,T>` (holding a `U` by value; `u.rt` is
the template argument `U`), and `heap_storage<U,T,can_be_inlined>` (holding a
`std::unique_ptr<U>`, possibly null; `sty` is the template argument `U`, the
pointee's dynamic type may differ from `sty`). -/
inductive Storage where
  | empty_storage : Storage
  | inline_storage (u : Obj) : Storage
  | heap_storage (sty : CType) (u : Option Obj) (can_be_inlined : Bool) : Storage

/-- `sizeof(poly::inline_storage<U,T>)`: one vtable pointer plus the payload. -/
def inlineSizeof (sty : CType) : Nat := ptrSize + sty.size

/-- `storage_concept::move_to(storage, storageSize)` dispatched on the source's
current storage.  Returns (what gets placement-constructed at the destination,
what the source's storage holds afterwards).

* `empty_storage::move_to` constructs an `empty_storage` at the destination.
* `inline_storage::move_to` (unique_ptr.h:68-76) tests
  `storageSize <= sizeof(inline_storage<U,T>)` and constructs inline when the
  test holds, else a `heap_storage<U,T>` around `new U(std::move(_u))`; the
  source keeps its moved-from inline object either way.
* `heap_storage::move_to` (unique_ptr.h:79-92) constructs inline iff
  `storageSize >= sizeof(inline_storage<U,T>)`, `_u != nullptr` and
  `can_be_inlined`, then `_u.reset()`s; else transfers the pointer with
  `_u.release()`.  Either way the source's `_u` ends null. -/
def move_to : Storage → Nat → Storage × Storage
  | .empty_storage, _ => (.empty_storage, .empty_storage)
  | .inline_storage u, storageSize =>
      if storageSize ≤ inlineSizeof u.rt then
        (.inline_storage u, .inline_storage (movedFrom u))
      else
        (.heap_storage u.rt (some u) true, .inline_storage (movedFrom u))
  | .heap_storage sty ou cbi, storageSize =>
      if inlineSizeof sty ≤ storageSize ∧ ou.isSome ∧ cbi then
        (.inline_storage (sliceTo sty (ou.getD ⟨sty, 0⟩)), .heap_storage sty none cbi)
      else
        (.heap_storage sty ou cbi, .heap_storage sty none cbi)

/-- `storage_concept::get()`: null for `empty_storage`, the inline object's
address for `inline_storage`, `_u.get()` (possibly null) for `heap_storage`. -/
def Storage.get : Storage → Option Obj
  | .empty_storage => none
  | .inline_storage u => some u
  | .heap_storage _ ou _ => ou

/-- `storage_concept::is_local()`: `true` for `empty_storage` and
`inline_storage`, `false` for `heap_storage`. -/
def Storage.is_local : Storage → Bool
  | .heap_storage _ _ _ => false
  | _ => true

/-- `poly::is_small<U, storage_size> = (sizeof(U) <= storage_size)`. -/
def is_small (sty : CType) (storage_size : Nat) : Bool := sty.size ≤ storage_size

/-- `poly::unique_ptr<T, storage_size>`: the capacity template argument and the
storage cell's current contents. -/
structure unique_ptr where
  storage_size : Nat
  _storage : Storage

/-- `sizeof(unique_ptr::storage_type)`:
`sizeof(void*) + max(sizeof(void*), storage_size)` (unique_ptr.h:112-114). -/
def storageTypeSizeof (storage_size : Nat) : Nat := ptrSize + max ptrSize storage_size

/-- Default construction: placement-constructs `empty_storage<T>`. -/
def unique_ptr.mk0 (storage_size : Nat) : unique_ptr := ⟨storage_size, .empty_storage⟩

/-- Move-construction of a capacity-`cap` container from `m`, and move
assignment into a capacity-`cap` container (which first destructs its old
payload, leaving the same resulting pair): `m.get_base().move_to(&_storage,
sizeof(storage_type))`.  Returns (destination, source afterwards). -/
def unique_ptr.moveFrom (cap : Nat) (m : unique_ptr) : unique_ptr × unique_ptr :=
  let r := move_to m._storage (storageTypeSizeof cap)
  (⟨cap, r.1⟩, ⟨m.storage_size, r.2⟩)

/-- `operator=(U&& u)` (unique_ptr.h:149-161): destructs, then inline iff
`is_small<U, storage_size>`, else `heap_storage<U,T>` around a heap move. -/
def unique_ptr.assign (p : unique_ptr) (u : Obj) : unique_ptr :=
  if is_small u.rt p.storage_size then
    ⟨p.storage_size, .inline_storage u⟩
  else
    ⟨p.storage_size, .heap_storage u.rt (some u) true⟩

/-- `reset(U* u)` (unique_ptr.h:163-183): destructs; if `is_small<U>`, the
slicing guard compares `typeid(*u)` with `typeid(U)` and inlines a move of
`*u` on match, else records `heap_storage<U,T,false>`; if not small, records
`heap_storage<U,T>` (can_be_inlined left `true`).  `sty` is the static `U`,
`u` the pointee with its dynamic type. -/
def unique_ptr.reset_ptr (p : unique_ptr) (sty : CType) (u : Obj) : unique_ptr :=
  if is_small sty p.storage_size then
    if u.rt.id = sty.id then
      ⟨p.storage_size, .inline_storage (sliceTo sty u)⟩
    else
      ⟨p.storage_size, .heap_storage sty (some u) false⟩
  else
    ⟨p.storage_size, .heap_storage sty (some u) true⟩

/-- `emplace<U>(args...)` (unique_ptr.h:187-209): destructs, then constructs a
`U` from the arguments, inline iff `is_small<U, storage_size>`, else directly
in a heap allocation. -/
def unique_ptr.emplace (p : unique_ptr) (ty : CType) (v : Nat) : unique_ptr :=
  if is_small ty p.storage_size then
    ⟨p.storage_size, .inline_storage ⟨ty, v⟩⟩
  else
    ⟨p.storage_size, .heap_storage ty (some ⟨ty, v⟩) true⟩

/-- `reset()` (unique_ptr.h:211-215): destructs, then `empty_storage`. -/
def unique_ptr.reset0 (p : unique_ptr) : unique_ptr :=
  ⟨p.storage_size, .empty_storage⟩

/-- `get()`: delegates to the active storage's `get`. -/
def unique_ptr.get (p : unique_ptr) : Option Obj := p._storage.get

/-- `explicit operator bool()`: `get() != nullptr`. -/
def unique_ptr.op_bool (p : unique_ptr) : Bool := p.get.isSome

/-- `is_local()`: delegates to the active storage. -/
def unique_ptr.is_local (p : unique_ptr) : Bool := p._storage.is_local

end poly

namespace poly_v2

/-- Which `concept<T>` vtable a container's `_concept` pointer designates:
`&empty_model<T>::vtable`, `&inline_model<U,T>::vtable`, or
`&ptr_model<U,T>::vtable` (one distinct vtable per template argument `U`). -/
inductive ConceptPtr where
  | empty_model : ConceptPtr
  | inline_model (sty : CType) : ConceptPtr
  | ptr_model (sty : CType) : ConceptPtr

/-- What object is currently constructed in a container's `_model` byte
region: nothing, an `inline_model<U,T>` (whose `_u : U` has dynamic type `U`,
so `u.rt` is the template argument), or a `ptr_model<U,T>` (whose
`std::unique_ptr<U> _u` may be null, and whose pointee's dynamic type may be
derived from `sty`). -/
inductive ModelBytes where
  | unconstructed : ModelBytes
  | inline_model (u : Obj) : ModelBytes
  | ptr_model (sty : CType) (ou : Option Obj) : ModelBytes

/-- `sizeof(poly_v2::inline_model<U,T>)`: just the payload (the vtable is a
static constexpr, the functions are static). -/
def inlineModelSizeof (sty : CType) : Nat := sty.size

/-- The `_move` entry of the vtable `_concept` points to, applied to the bytes
actually constructed in `_model` (`self`) and the destination's
`sizeof(storage_type)`.  Returns `none` when the entry would interpret the
bytes as a type other than the one constructed there (a `static_cast` to the
wrong model type — undefined behavior), otherwise
(destination `_concept`, what is constructed at the destination, what the
source's `_model` holds afterwards).

* `empty_model::_move` (unique_ptr_v2.h:24) only sets the destination's
  concept pointer; nothing is constructed at the destination and the source
  is untouched.
* `inline_model::_move` (unique_ptr_v2.h:48-53) constructs inline at the
  destination iff `sizeof(inline_model) <= dest_size`, else a
  `ptr_model<U,T>` around `new U(std::move(self->_u))`; the source keeps its
  moved-from inline object.
* `ptr_model::_move` (unique_ptr_v2.h:88-95) constructs
  `inline_model<U,T>(c, std::move(*self->_u.get()))` iff
  `sizeof(inline_model<U,T>) <= dest_size` — without checking `_u` for null
  (a null `_u` makes this dereference undefined behavior in C++; the model
  records the unspecified moved value as `0`) and without resetting the
  source's `_u`, which keeps owning the (moved-from) pointee; else transfers
  the pointer with `_u.release()`, leaving the source's `_u` null. -/
def _move : ConceptPtr → ModelBytes → Nat → Option (ConceptPtr × ModelBytes × ModelBytes)
  | .empty_model, m, _ => some (.empty_model, .unconstructed, m)
  | .inline_model sty, .inline_model u, dest_size =>
      if u.rt = sty then
        if inlineModelSizeof sty ≤ dest_size then
          some (.inline_model sty, .inline_model u, .inline_model (movedFrom u))
        else
          some (.ptr_model sty, .ptr_model sty (some u), .inline_model (movedFrom u))
      else none
  | .ptr_model sty, .ptr_model sty2 ou, dest_size =>
      if sty2 = sty then
        if inlineModelSizeof sty ≤ dest_size then
          some (.inline_model sty, .inline_model (sliceTo sty (ou.getD ⟨sty, 0⟩)),
            .ptr_model sty (ou.map movedFrom))
        else
          some (.ptr_model sty, .ptr_model sty ou, .ptr_model sty none)
      else none
  | _, _, _ => none

/-- The `_get` entry: `empty_model::_get` returns null without touching the
bytes; `inline_model::_get` returns the inline object's address;
`ptr_model::_get` returns `_u.get()`.  `none` on misinterpretation of the
constructed bytes, otherwise `some` of the returned (possibly null) pointer. -/
def _get : ConceptPtr → ModelBytes → Option (Option Obj)
  | .empty_model, _ => some none
  | .inline_model sty, .inline_model u => if u.rt = sty then some (some u) else none
  | .ptr_model sty, .ptr_model sty2 ou => if sty2 = sty then some ou else none
  | _, _ => none

/-- The `_release` entry: `empty_model::_release` returns null;
`inline_model::_release` (unique_ptr_v2.h:59-61) returns
`new U(std::move(self->_u))` — a fresh heap object of the stored type — and
leaves the moved-from inline object constructed; `ptr_model::_release`
(unique_ptr_v2.h:101-103) returns `_u.release()`, leaving `_u` null.  `none`
on misinterpretation; otherwise (returned pointer, bytes afterwards). -/
def _release : ConceptPtr → ModelBytes → Option (Option Obj × ModelBytes)
  | .empty_model, m => some (none, m)
  | .inline_model sty, .inline_model u =>
      if u.rt = sty then some (some (sliceTo sty u), .inline_model (movedFrom u)) else none
  | .ptr_model sty, .ptr_model sty2 ou =>
      if sty2 = sty then some (ou, .ptr_model sty none) else none
  | _, _ => none

/-- The `_dtor` entry: a no-op for `empty_model`, the model's destructor
otherwise.  `none` on misinterpretation; on success the byte region holds no
constructed object. -/
def _dtor : ConceptPtr → ModelBytes → Option Unit
  | .empty_model, _ => some ()
  | .inline_model sty, .inline_model u => if u.rt = sty then some () else none
  | .ptr_model sty, .ptr_model sty2 _ => if sty2 = sty then some () else none
  | _, _ => none

/-- The `_is_inlined` entry: `empty_model` and `inline_model` return `true`;
`ptr_model::_is_inlined` (unique_ptr_v2.h:105) also returns `true` in the
source. -/
def _is_inlined : ConceptPtr → Bool
  | .empty_model => true
  | .inline_model _ => true
  | .ptr_model _ => true

/-- `poly_v2::unique_ptr<T, storage_size>`: capacity template argument, the
`_concept` vtable pointer, and the contents of the `_model` byte region
(`sizeof(storage_type) = storage_size`; `aligned_storage_t` padding is not
modeled). -/
structure unique_ptr where
  storage_size : Nat
  _concept : ConceptPtr
  _model : ModelBytes

/-- Default construction: `_concept = &empty_model<T>::vtable`, `_model`
unconstructed. -/
def unique_ptr.mk0 (storage_size : Nat) : unique_ptr :=
  ⟨storage_size, .empty_model, .unconstructed⟩

/-- `reset()` (unique_ptr_v2.h:229-233): `_concept->_dtor(&_model)` then
`_concept = &empty_model<T>::vtable`. -/
def unique_ptr.reset0 (p : unique_ptr) : Option unique_ptr :=
  (_dtor p._concept p._model).map fun _ =>
    ⟨p.storage_size, .empty_model, .unconstructed⟩

/-- Move-construction of a capacity-`cap` container from `m` (and move
assignment, which `reset()`s the destination first and ends in the same
state): `m._concept->_move(_concept, &m._model, &_model,
sizeof(storage_type))`.  Returns (destination, source afterwards); the
source's `_concept` is not changed by the move. -/
def unique_ptr.moveFrom (cap : Nat) (m : unique_ptr) : Option (unique_ptr × unique_ptr) :=
  (_move m._concept m._model cap).map fun r =>
    (⟨cap, r.1, r.2.1⟩, ⟨m.storage_size, m._concept, r.2.2⟩)

/-- `operator=(U&& u)` (unique_ptr_v2.h:165-177): `reset()`, then an
`inline_model<U,T>` iff `is_small<U,T,storage_size>` (i.e.
`sizeof(inline_model<U,T>) <= storage_size`), else a `ptr_model<U,T>` around
`new U(std::forward<U>(u))`. -/
def unique_ptr.assign (p : unique_ptr) (u : Obj) : Option unique_ptr :=
  (p.reset0).map fun p0 =>
    if inlineModelSizeof u.rt ≤ p0.storage_size then
      ⟨p0.storage_size, .inline_model u.rt, .inline_model u⟩
    else
      ⟨p0.storage_size, .ptr_model u.rt, .ptr_model u.rt (some u)⟩

/-- `emplace<U>(args...)` (unique_ptr_v2.h:180-200): `reset()`, then a `U`
constructed from the arguments, inline iff `is_small<U,T,storage_size>`,
else directly in a `ptr_model` heap allocation. -/
def unique_ptr.emplace (p : unique_ptr) (ty : CType) (v : Nat) : Option unique_ptr :=
  (p.reset0).map fun p0 =>
    if inlineModelSizeof ty ≤ p0.storage_size then
      ⟨p0.storage_size, .inline_model ty, .inline_model ⟨ty, v⟩⟩
    else
      ⟨p0.storage_size, .ptr_model ty, .ptr_model ty (some ⟨ty, v⟩)⟩

/-- `reset(U* u)` (unique_ptr_v2.h:203-212): `reset()`, then — with no check
of `typeid(*u)` — an `inline_model<U,T>(std::move(*u))` iff
`is_small<U,T,storage_size>` (this constructs a `U` from the possibly-derived
pointee, slicing it, and never frees `u`), else a `ptr_model<U,T>(u)` taking
ownership of the pointer.  `sty` is the static `U`, `u` the pointee with its
dynamic type. -/
def unique_ptr.reset_ptr (p : unique_ptr) (sty : CType) (u : Obj) : Option unique_ptr :=
  (p.reset0).map fun p0 =>
    if inlineModelSizeof sty ≤ p0.storage_size then
      ⟨p0.storage_size, .inline_model sty, .inline_model (sliceTo sty u)⟩
    else
      ⟨p0.storage_size, .ptr_model sty, .ptr_model sty (some u)⟩

/-- `get()`: `_concept->_get(&_model)`. -/
def unique_ptr.get (p : unique_ptr) : Option (Option Obj) := _get p._concept p._model

/-- `explicit operator bool()`: `get() != nullptr`. -/
def unique_ptr.op_bool (p : unique_ptr) : Option Bool := (p.get).map Option.isSome

/-- `is_inlined()`: `_concept->_is_inlined()`. -/
def unique_ptr.is_inlined (p : unique_ptr) : Bool := _is_inlined p._concept

/-- `release<U>()` (unique_ptr_v2.h:236-245): `dynamic_cast<U*>(get())`; if
that succeeds, `static_cast<U*>(_concept->_release(&_model))`, else null
without touching the container.  `req` is the requested `U`'s typeid.
Returns `none` on misinterpretation, otherwise (returned pointer, container
afterwards — note `_concept` is left unchanged even on success). -/
def unique_ptr.release (p : unique_ptr) (req : Nat) : Option (Option Obj × unique_ptr) :=
  (p.get).bind fun g =>
    match g with
    | none => some (none, p)
    | some obj =>
        if dynCastOk obj.rt req then
          (_release p._concept p._model).map fun r =>
            (r.1, ⟨p.storage_size, p._concept, r.2⟩)
        else some (none, p)

/-- Whether the container currently holds a heap (`ptr_model`) payload. -/
def unique_ptr.holdsHeap (p : unique_ptr) : Bool :=
  match p._model with
  | .ptr_model _ _ => true
  | _ => false

/-- The C10 invariant: `_concept` designates the vtable of exactly the model
kind (and template argument) currently constructed in `_model`. -/
def unique_ptr.valid (p : unique_ptr) : Bool :=
  match p._concept, p._model with
  | .empty_model, .unconstructed => true
  | .inline_model sty, .inline_model u => u.rt = sty
  | .ptr_model sty, .ptr_model sty2 _ => sty2 = sty
  | _, _ => false

end poly_v2

/-!
Theorems.  Concrete types used in closed statements:
`⟨1, 8, []⟩` models `small` (typeid 1, 8 bytes, no bases),
`⟨2, 16, [1]⟩` models `special_small` (derived from typeid 1),
`⟨3, 1000, []⟩` models `large`.
-/

/-- Claim C1: the claim states relocation installs the payload inline iff the
destination capacity is at least the size of the inline representation.  In
`poly::inline_storage::move_to` (unique_ptr.h:70) the comparison is inverted
(`storageSize <= sizeof(inline_storage)` instead of `>=`): relocating an
inline payload whose inline representation is 16 bytes into a 1000-byte
destination installs it on the heap, and into a 10-byte destination installs
it inline (into storage smaller than the object). -/
theorem C1_v1_inline_relocation_inverted :
    poly.inlineSizeof ⟨1, 8, []⟩ = 16 ∧
    (poly.move_to (.inline_storage ⟨⟨1, 8, []⟩, 5⟩) 1000).1 =
      .heap_storage ⟨1, 8, []⟩ (some ⟨⟨1, 8, []⟩, 5⟩) true ∧
    (poly.move_to (.inline_storage ⟨⟨1, 8, []⟩, 5⟩) 10).1 =
      .inline_storage ⟨⟨1, 8, []⟩, 5⟩ := ⟨rfl, rfl, rfl⟩

/-- Claim C2, counterexample: a capacity-100 `poly::unique_ptr` holding an
inline payload is moved into a capacity-100 container; afterwards the source's
boolean conversion is `true` (its storage still holds the moved-from inline
object, so `get()` is non-null), whereas the claim requires the source to
report empty. -/
theorem C2_counterexample :
    (poly.unique_ptr.moveFrom 100
        ((poly.unique_ptr.mk0 100).assign ⟨⟨1, 8, []⟩, 7⟩)).2.op_bool = true ∧
    (poly.unique_ptr.moveFrom 100
        ((poly.unique_ptr.mk0 100).assign ⟨⟨1, 8, []⟩, 7⟩)).2.get =
      some ⟨⟨1, 8, []⟩, 0⟩ := ⟨rfl, rfl⟩

/-- Claim C2, amended: moving a container holding value `v` (with no pending
slicing: a heap payload's dynamic type equals its installed static type)
into a destination of any capacity leaves the destination holding a value
observationally equal to `v`; the source is NOT emptied in general — in
`poly` it reports empty afterwards iff the payload was heap-held (its
`unique_ptr` member is nulled), and in `poly_v2` iff the payload was
heap-held and the destination re-installed it on the heap (the
heap-to-inline path does not reset the source's pointer). -/
theorem C2_amended :
    (∀ (dcap : Nat) (p : poly.unique_ptr) (obj : Obj),
      p.get = some obj →
      (∀ sty ou cbi, p._storage = .heap_storage sty ou cbi → sty = obj.rt) →
      (poly.unique_ptr.moveFrom dcap p).1.get = some obj ∧
      ((poly.unique_ptr.moveFrom dcap p).2.op_bool = false ↔ p.is_local = false)) ∧
    (∀ (dcap : Nat) (p : poly_v2.unique_ptr) (obj : Obj),
      p.valid = true →
      p.get = some (some obj) →
      (∀ sty ou, p._model = .ptr_model sty ou → sty = obj.rt) →
      ∃ d s, poly_v2.unique_ptr.moveFrom dcap p = some (d, s) ∧
        d.get = some (some obj) ∧
        (s.op_bool = some false ↔
          p.holdsHeap = true ∧ ¬ poly_v2.inlineModelSizeof obj.rt ≤ dcap)) := by
  constructor
  · intro dcap p obj hget hty
    obtain ⟨sz, st⟩ := p
    cases st with
    | empty_storage => simp [poly.unique_ptr.get, poly.Storage.get] at hget
    | inline_storage u =>
        simp only [poly.unique_ptr.get, poly.Storage.get, Option.some.injEq] at hget
        subst hget
        simp only [poly.unique_ptr.moveFrom, poly.move_to]
        split_ifs <;>
          simp [poly.unique_ptr.get, poly.Storage.get, poly.unique_ptr.op_bool,
            poly.unique_ptr.is_local, poly.Storage.is_local]
    | heap_storage sty ou cbi =>
        simp only [poly.unique_ptr.get, poly.Storage.get] at hget
        have hsty : sty = obj.rt := hty sty ou cbi rfl
        subst hsty
        subst hget
        simp only [poly.unique_ptr.moveFrom, poly.move_to]
        split_ifs <;>
          simp [poly.unique_ptr.get, poly.Storage.get, poly.unique_ptr.op_bool,
            poly.unique_ptr.is_local, poly.Storage.is_local, sliceTo]
  · intro dcap p obj hv hget hty
    obtain ⟨sz, c, m⟩ := p
    cases c with
    | empty_model =>
        cases m <;>
          simp only [poly_v2.unique_ptr.valid, decide_eq_true_eq] at hv <;>
          simp [poly_v2.unique_ptr.get, poly_v2._get] at hget
    | inline_model sty =>
        cases m with
        | unconstructed => simp [poly_v2.unique_ptr.valid] at hv
        | ptr_model sty2 ou => simp [poly_v2.unique_ptr.valid] at hv
        | inline_model u =>
            simp only [poly_v2.unique_ptr.valid, decide_eq_true_eq] at hv
            subst hv
            simp [poly_v2.unique_ptr.get, poly_v2._get] at hget
            subst hget
            by_cases h : poly_v2.inlineModelSizeof u.rt ≤ dcap
            · have hm : poly_v2.unique_ptr.moveFrom dcap
                  ⟨sz, .inline_model u.rt, .inline_model u⟩ =
                  some (⟨dcap, .inline_model u.rt, .inline_model u⟩,
                    ⟨sz, .inline_model u.rt, .inline_model (movedFrom u)⟩) := by
                simp [poly_v2.unique_ptr.moveFrom, poly_v2._move, h]
              refine ⟨_, _, hm, ?_, ?_⟩
              · simp [poly_v2.unique_ptr.get, poly_v2._get]
              · simp [poly_v2.unique_ptr.op_bool, poly_v2.unique_ptr.get, poly_v2._get,
                  movedFrom, poly_v2.unique_ptr.holdsHeap]
            · have hm : poly_v2.unique_ptr.moveFrom dcap
                  ⟨sz, .inline_model u.rt, .inline_model u⟩ =
                  some (⟨dcap, .ptr_model u.rt, .ptr_model u.rt (some u)⟩,
                    ⟨sz, .inline_model u.rt, .inline_model (movedFrom u)⟩) := by
                simp [poly_v2.unique_ptr.moveFrom, poly_v2._move, h]
              refine ⟨_, _, hm, ?_, ?_⟩
              · simp [poly_v2.unique_ptr.get, poly_v2._get]
              · simp [poly_v2.unique_ptr.op_bool, poly_v2.unique_ptr.get, poly_v2._get,
                  movedFrom, poly_v2.unique_ptr.holdsHeap]
    | ptr_model sty =>
        cases m with
        | unconstructed => simp [poly_v2.unique_ptr.valid] at hv
        | inline_model u => simp [poly_v2.unique_ptr.valid] at hv
        | ptr_model sty2 ou =>
            simp only [poly_v2.unique_ptr.valid, decide_eq_true_eq] at hv
            subst hv
            have hsty : sty2 = obj.rt := hty sty2 ou rfl
            subst hsty
            simp [poly_v2.unique_ptr.get, poly_v2._get] at hget
            subst hget
            by_cases h : poly_v2.inlineModelSizeof obj.rt ≤ dcap
            · have hm : poly_v2.unique_ptr.moveFrom dcap
                  ⟨sz, .ptr_model obj.rt, .ptr_model obj.rt (some obj)⟩ =
                  some (⟨dcap, .inline_model obj.rt, .inline_model (sliceTo obj.rt obj)⟩,
                    ⟨sz, .ptr_model obj.rt, .ptr_model obj.rt (some (movedFrom obj))⟩) := by
                simp [poly_v2.unique_ptr.moveFrom, poly_v2._move, h]
              refine ⟨_, _, hm, ?_, ?_⟩
              · simp [poly_v2.unique_ptr.get, poly_v2._get, sliceTo]
              · simp [poly_v2.unique_ptr.op_bool, poly_v2.unique_ptr.get, poly_v2._get,
                  movedFrom, poly_v2.unique_ptr.holdsHeap, h]
            · have hm : poly_v2.unique_ptr.moveFrom dcap
                  ⟨sz, .ptr_model obj.rt, .ptr_model obj.rt (some obj)⟩ =
                  some (⟨dcap, .ptr_model obj.rt, .ptr_model obj.rt (some obj)⟩,
                    ⟨sz, .ptr_model obj.rt, .ptr_model obj.rt none⟩) := by
                simp [poly_v2.unique_ptr.moveFrom, poly_v2._move, h]
              refine ⟨_, _, hm, ?_, ?_⟩
              · simp [poly_v2.unique_ptr.get, poly_v2._get]
              · simp [poly_v2.unique_ptr.op_bool, poly_v2.unique_ptr.get, poly_v2._get,
                  poly_v2.unique_ptr.holdsHeap, h]

/-- Helper: on a container satisfying the concept/model invariant, `reset()`
destroys the constructed model and yields the empty container. -/
theorem poly_v2.reset0_of_valid (p : poly_v2.unique_ptr) (hv : p.valid = true) :
    p.reset0 = some ⟨p.storage_size, .empty_model, .unconstructed⟩ := by
  obtain ⟨sz, c, m⟩ := p
  cases c <;> cases m <;>
    simp_all [poly_v2.unique_ptr.valid, poly_v2.unique_ptr.reset0, poly_v2._dtor]

/-- Helper: `release` on a container holding an inline payload. -/
theorem poly_v2.release_inline_eq (sz : Nat) (u : Obj) (req : Nat) :
    poly_v2.unique_ptr.release ⟨sz, .inline_model u.rt, .inline_model u⟩ req =
      (if dynCastOk u.rt req then
        some (some u, ⟨sz, .inline_model u.rt, .inline_model (movedFrom u)⟩)
      else
        some (none, ⟨sz, .inline_model u.rt, .inline_model u⟩)) := by
  by_cases hc : dynCastOk u.rt req = true <;>
    simp [poly_v2.unique_ptr.release, poly_v2.unique_ptr.get, poly_v2._get,
      poly_v2._release, hc, sliceTo]

/-- Helper: `release` on a container holding a heap payload. -/
theorem poly_v2.release_ptr_some_eq (sz : Nat) (sty : CType) (u : Obj) (req : Nat) :
    poly_v2.unique_ptr.release ⟨sz, .ptr_model sty, .ptr_model sty (some u)⟩ req =
      (if dynCastOk u.rt req then
        some (some u, ⟨sz, .ptr_model sty, .ptr_model sty none⟩)
      else
        some (none, ⟨sz, .ptr_model sty, .ptr_model sty (some u)⟩)) := by
  by_cases hc : dynCastOk u.rt req = true <;>
    simp [poly_v2.unique_ptr.release, poly_v2.unique_ptr.get, poly_v2._get,
      poly_v2._release, hc]

/-- Helper: `release` on an empty container returns null and changes nothing. -/
theorem poly_v2.release_empty_eq (sz : Nat) (req : Nat) :
    poly_v2.unique_ptr.release ⟨sz, .empty_model, .unconstructed⟩ req =
      some (none, ⟨sz, .empty_model, .unconstructed⟩) := by
  simp [poly_v2.unique_ptr.release, poly_v2.unique_ptr.get, poly_v2._get]

/-- Helper: `release` on a container whose heap pointer is null returns null
and changes nothing. -/
theorem poly_v2.release_ptr_none_eq (sz : Nat) (sty : CType) (req : Nat) :
    poly_v2.unique_ptr.release ⟨sz, .ptr_model sty, .ptr_model sty none⟩ req =
      some (none, ⟨sz, .ptr_model sty, .ptr_model sty none⟩) := by
  simp [poly_v2.unique_ptr.release, poly_v2.unique_ptr.get, poly_v2._get]

/-- Claim C3: the claim states the locality query returns true iff the payload
bytes live inline, so a heap payload must report false.  In `poly_v2`,
`ptr_model::_is_inlined` (unique_ptr_v2.h:105) returns `true`: a capacity-8
container assigned a 1000-byte object installs it in a `ptr_model` (heap)
yet `is_inlined()` reports `true`.  The `poly` variant's
`heap_storage::is_local` correctly reports `false` on the same scenario. -/
theorem C3_v2_heap_payload_reports_inlined :
    ((poly_v2.unique_ptr.mk0 8).assign ⟨⟨3, 1000, []⟩, 3⟩).map
        (fun p => (p._concept, p.is_inlined)) =
      some (.ptr_model ⟨3, 1000, []⟩, true) ∧
    ((poly.unique_ptr.mk0 8).assign ⟨⟨3, 1000, []⟩, 3⟩).is_local = false := ⟨rfl, rfl⟩

/-- Claim C4: the claim states `poly::unique_ptr` and `poly_v2::unique_ptr`
produce identical observable results for every public-operation sequence.
Emplacing a 1000-byte object into a capacity-8 container of each variant and
querying locality gives `false` in `poly` and `true` in `poly_v2` (via
`ptr_model::_is_inlined`), an observable divergence. -/
theorem C4_variants_observably_differ :
    ((poly.unique_ptr.mk0 8).emplace ⟨3, 1000, []⟩ 3).is_local = false ∧
    ((poly_v2.unique_ptr.mk0 8).emplace ⟨3, 1000, []⟩ 3).map
      poly_v2.unique_ptr.is_inlined = some true := ⟨rfl, rfl⟩

/-- Claim C5: the claim states `reset(U*)` with a pointee whose runtime type
is not exactly `U` keeps the object on the heap, never moved into inline
storage.  `poly_v2::unique_ptr::reset(U*)` (unique_ptr_v2.h:203-212) performs
no runtime-type check: resetting a capacity-100 container with a `U*` of
static typeid 1 (8 bytes) pointing to an object of derived runtime typeid 2
move-constructs an inline `U` from the derived object (slicing it to typeid
1).  The `poly` variant's guard (unique_ptr.h:174) correctly keeps the same
object on the heap, marked never-inlinable. -/
theorem C5_v2_reset_ptr_slices_inline :
    (poly_v2.unique_ptr.mk0 100).reset_ptr ⟨1, 8, []⟩ ⟨⟨2, 16, [1]⟩, 10⟩ =
      some ⟨100, .inline_model ⟨1, 8, []⟩, .inline_model ⟨⟨1, 8, []⟩, 10⟩⟩ ∧
    (poly.unique_ptr.mk0 100).reset_ptr ⟨1, 8, []⟩ ⟨⟨2, 16, [1]⟩, 10⟩ =
      ⟨100, .heap_storage ⟨1, 8, []⟩ (some ⟨⟨2, 16, [1]⟩, 10⟩) false⟩ := ⟨rfl, rfl⟩

/-- Claim C6, counterexample: a `poly_v2` container holding an object of
runtime typeid 2 (`special_small`, derived from typeid 1): `release` with
requested typeid 1 (the base, not the stored concrete type) does not return
null — the `dynamic_cast` accepts the derived object — whereas the claim
requires an exact concrete-type match to succeed. -/
theorem C6_counterexample :
    (((poly_v2.unique_ptr.mk0 100).assign ⟨⟨2, 16, [1]⟩, 10⟩).bind
        (fun p => p.release 1)).map (fun r => r.1) =
      some (some ⟨⟨2, 16, [1]⟩, 10⟩) := rfl

/-- Claim C6, amended: `release<U>()` returns null iff the container is empty
(no object, or a null heap pointer) or the stored object's runtime type is
neither `U` nor derived from `U` (`dynamic_cast` semantics); an exact
concrete-type match is not required — a stored derived type succeeds. -/
theorem C6_amended :
    ∀ (p : poly_v2.unique_ptr) (req : Nat),
    p.valid = true →
    ∃ r q, p.release req = some (r, q) ∧
      (r = none ↔ ∀ obj, p.get = some (some obj) → dynCastOk obj.rt req = false) := by
  intro p req hv
  obtain ⟨sz, c, m⟩ := p
  cases c with
  | empty_model =>
      cases m with
      | unconstructed =>
          refine ⟨none, _, poly_v2.release_empty_eq sz req, ?_⟩
          simp [poly_v2.unique_ptr.get, poly_v2._get]
      | inline_model u => simp [poly_v2.unique_ptr.valid] at hv
      | ptr_model sty ou => simp [poly_v2.unique_ptr.valid] at hv
  | inline_model sty =>
      cases m with
      | unconstructed => simp [poly_v2.unique_ptr.valid] at hv
      | ptr_model sty2 ou => simp [poly_v2.unique_ptr.valid] at hv
      | inline_model u =>
          simp only [poly_v2.unique_ptr.valid, decide_eq_true_eq] at hv
          subst hv
          by_cases hc : dynCastOk u.rt req = true
          · refine ⟨some u, _, by rw [poly_v2.release_inline_eq, if_pos hc], ?_⟩
            simp only [poly_v2.unique_ptr.get, poly_v2._get]
            constructor
            · intro h; exact Option.noConfusion h
            · intro h
              have := h u (by simp)
              rw [hc] at this
              exact absurd this (by simp)
          · refine ⟨none, _, by rw [poly_v2.release_inline_eq, if_neg hc], ?_⟩
            simp only [poly_v2.unique_ptr.get, poly_v2._get, Bool.not_eq_true] at hc ⊢
            constructor
            · intro _ obj hobj
              simp at hobj
              subst hobj
              exact hc
            · intro _; trivial
  | ptr_model sty =>
      cases m with
      | unconstructed => simp [poly_v2.unique_ptr.valid] at hv
      | inline_model u => simp [poly_v2.unique_ptr.valid] at hv
      | ptr_model sty2 ou =>
          simp only [poly_v2.unique_ptr.valid, decide_eq_true_eq] at hv
          subst hv
          cases ou with
          | none =>
              refine ⟨none, _, poly_v2.release_ptr_none_eq sz sty2 req, ?_⟩
              simp [poly_v2.unique_ptr.get, poly_v2._get]
          | some u =>
              by_cases hc : dynCastOk u.rt req = true
              · refine ⟨some u, _, by rw [poly_v2.release_ptr_some_eq, if_pos hc], ?_⟩
                simp only [poly_v2.unique_ptr.get, poly_v2._get]
                constructor
                · intro h; exact Option.noConfusion h
                · intro h
                  have := h u (by simp)
                  rw [hc] at this
                  exact absurd this (by simp)
              · refine ⟨none, _, by rw [poly_v2.release_ptr_some_eq, if_neg hc], ?_⟩
                simp only [poly_v2.unique_ptr.get, poly_v2._get, Bool.not_eq_true] at hc ⊢
                constructor
                · intro _ obj hobj
                  simp at hobj
                  subst hobj
                  exact hc
                · intro _; trivial

/-- Claim C6, witness for the amended theorem: a container holding an inline
object of typeid 1, released with requested typeid 5 (no match), yields a
null result. -/
theorem C6_amended_witness :
    ∃ r q, (⟨100, .inline_model ⟨1, 8, []⟩,
        .inline_model ⟨⟨1, 8, []⟩, 5⟩⟩ : poly_v2.unique_ptr).release 5 = some (r, q) ∧
      (r = none ↔ ∀ obj, (⟨100, .inline_model ⟨1, 8, []⟩,
        .inline_model ⟨⟨1, 8, []⟩, 5⟩⟩ : poly_v2.unique_ptr).get = some (some obj) →
          dynCastOk obj.rt 5 = false) :=
  C6_amended ⟨100, .inline_model ⟨1, 8, []⟩, .inline_model ⟨⟨1, 8, []⟩, 5⟩⟩ 5 rfl

/-- Claim C7: on a container holding a payload of type `V`, a `release`
requesting a different type `U` that fails (returns null) leaves the
container unchanged and still owning the payload: a subsequent `get` returns
the same value. -/
theorem C7_failed_release_leaves_container_unchanged :
    ∀ (p : poly_v2.unique_ptr) (req : Nat) (obj : Obj) (r : Option Obj)
      (q : poly_v2.unique_ptr),
    p.valid = true →
    p.get = some (some obj) →
    obj.rt.id ≠ req →
    p.release req = some (r, q) →
    r = none →
    q = p ∧ q.get = some (some obj) := by
  intro p req obj r q hv hget hne hrel hr
  subst hr
  obtain ⟨sz, c, m⟩ := p
  cases c with
  | empty_model =>
      cases m <;> simp only [poly_v2.unique_ptr.valid, decide_eq_true_eq] at hv <;>
        simp [poly_v2.unique_ptr.get, poly_v2._get] at hget
  | inline_model sty =>
      cases m with
      | unconstructed => simp [poly_v2.unique_ptr.valid] at hv
      | ptr_model sty2 ou => simp [poly_v2.unique_ptr.valid] at hv
      | inline_model u =>
          simp only [poly_v2.unique_ptr.valid, decide_eq_true_eq] at hv
          subst hv
          simp [poly_v2.unique_ptr.get, poly_v2._get] at hget
          subst hget
          rw [poly_v2.release_inline_eq] at hrel
          by_cases hc : dynCastOk u.rt req = true
          · rw [if_pos hc] at hrel
            simp at hrel
          · rw [if_neg hc] at hrel
            simp only [Option.some.injEq, Prod.mk.injEq] at hrel
            refine ⟨hrel.2.symm, ?_⟩
            rw [← hrel.2]
            simp [poly_v2.unique_ptr.get, poly_v2._get]
  | ptr_model sty =>
      cases m with
      | unconstructed => simp [poly_v2.unique_ptr.valid] at hv
      | inline_model u => simp [poly_v2.unique_ptr.valid] at hv
      | ptr_model sty2 ou =>
          simp only [poly_v2.unique_ptr.valid, decide_eq_true_eq] at hv
          subst hv
          simp only [poly_v2.unique_ptr.get, poly_v2._get, if_pos] at hget
          have hou : ou = some obj := by simpa using hget
          subst hou
          rw [poly_v2.release_ptr_some_eq] at hrel
          by_cases hc : dynCastOk obj.rt req = true
          · rw [if_pos hc] at hrel
            simp at hrel
          · rw [if_neg hc] at hrel
            simp only [Option.some.injEq, Prod.mk.injEq] at hrel
            refine ⟨hrel.2.symm, ?_⟩
            rw [← hrel.2]
            simp [poly_v2.unique_ptr.get, poly_v2._get]

/-- Claim C7, witness: a container holding a heap object of typeid 2 is
released with requested typeid 9; the call returns null and the container is
unchanged. -/
theorem C7_witness :
    (⟨64, .ptr_model ⟨2, 16, [1]⟩, .ptr_model ⟨2, 16, [1]⟩
        (some ⟨⟨2, 16, [1]⟩, 4⟩)⟩ : poly_v2.unique_ptr) =
      ⟨64, .ptr_model ⟨2, 16, [1]⟩, .ptr_model ⟨2, 16, [1]⟩ (some ⟨⟨2, 16, [1]⟩, 4⟩)⟩ ∧
    (⟨64, .ptr_model ⟨2, 16, [1]⟩, .ptr_model ⟨2, 16, [1]⟩
        (some ⟨⟨2, 16, [1]⟩, 4⟩)⟩ : poly_v2.unique_ptr).get =
      some (some ⟨⟨2, 16, [1]⟩, 4⟩) :=
  C7_failed_release_leaves_container_unchanged
    ⟨64, .ptr_model ⟨2, 16, [1]⟩, .ptr_model ⟨2, 16, [1]⟩ (some ⟨⟨2, 16, [1]⟩, 4⟩)⟩
    9 ⟨⟨2, 16, [1]⟩, 4⟩ none
    ⟨64, .ptr_model ⟨2, 16, [1]⟩, .ptr_model ⟨2, 16, [1]⟩ (some ⟨⟨2, 16, [1]⟩, 4⟩)⟩
    rfl rfl (by decide) rfl rfl

/-- Claim C8, counterexample: a container holding an inline object of typeid
1: `release` with requested typeid 1 succeeds (returns an owning pointer),
but the container does not become empty — its boolean conversion is still
`true` (the moved-from inline object is still installed), whereas the claim
requires the container to be left empty. -/
theorem C8_counterexample :
    (((poly_v2.unique_ptr.mk0 100).assign ⟨⟨1, 8, []⟩, 5⟩).bind
        (fun p => p.release 1)).map (fun r => (r.1.isSome, r.2.op_bool)) =
      some (true, some true) := rfl

/-- Claim C8, amended: on a container holding a payload whose runtime type
satisfies the requested type's `dynamic_cast`, `release` succeeds, returning
an owning heap pointer to (a move of) the stored object; the container's
`_concept` and capacity are unchanged, and it reports empty afterwards iff
the payload was heap-held — releasing an inline payload leaves the container
still reporting non-empty (the moved-from inline object stays installed). -/
theorem C8_amended :
    ∀ (p : poly_v2.unique_ptr) (req : Nat) (obj : Obj),
    p.valid = true →
    p.get = some (some obj) →
    dynCastOk obj.rt req = true →
    ∃ q, p.release req = some (some obj, q) ∧
      q.storage_size = p.storage_size ∧ q._concept = p._concept ∧
      (q.op_bool = some false ↔ p.holdsHeap = true) := by
  intro p req obj hv hget hc
  obtain ⟨sz, c, m⟩ := p
  cases c with
  | empty_model =>
      cases m <;> simp only [poly_v2.unique_ptr.valid, decide_eq_true_eq] at hv <;>
        simp [poly_v2.unique_ptr.get, poly_v2._get] at hget
  | inline_model sty =>
      cases m with
      | unconstructed => simp [poly_v2.unique_ptr.valid] at hv
      | ptr_model sty2 ou => simp [poly_v2.unique_ptr.valid] at hv
      | inline_model u =>
          simp only [poly_v2.unique_ptr.valid, decide_eq_true_eq] at hv
          subst hv
          simp [poly_v2.unique_ptr.get, poly_v2._get] at hget
          subst hget
          refine ⟨⟨sz, .inline_model u.rt, .inline_model (movedFrom u)⟩,
            by rw [poly_v2.release_inline_eq, if_pos hc], rfl, rfl, ?_⟩
          simp [poly_v2.unique_ptr.op_bool, poly_v2.unique_ptr.get, poly_v2._get,
            movedFrom, poly_v2.unique_ptr.holdsHeap]
  | ptr_model sty =>
      cases m with
      | unconstructed => simp [poly_v2.unique_ptr.valid] at hv
      | inline_model u => simp [poly_v2.unique_ptr.valid] at hv
      | ptr_model sty2 ou =>
          simp only [poly_v2.unique_ptr.valid, decide_eq_true_eq] at hv
          subst hv
          simp only [poly_v2.unique_ptr.get, poly_v2._get, if_pos] at hget
          have hou : ou = some obj := by simpa using hget
          subst hou
          refine ⟨⟨sz, .ptr_model sty2, .ptr_model sty2 none⟩,
            by rw [poly_v2.release_ptr_some_eq, if_pos hc], rfl, rfl, ?_⟩
          simp [poly_v2.unique_ptr.op_bool, poly_v2.unique_ptr.get, poly_v2._get,
            poly_v2.unique_ptr.holdsHeap]

/-- Claim C8, witness for the amended theorem: releasing a heap-held object of
typeid 2 as its base typeid 1 succeeds and empties the container. -/
theorem C8_amended_witness :
    ∃ q, (⟨64, .ptr_model ⟨2, 16, [1]⟩, .ptr_model ⟨2, 16, [1]⟩
        (some ⟨⟨2, 16, [1]⟩, 4⟩)⟩ : poly_v2.unique_ptr).release 1 =
      some (some ⟨⟨2, 16, [1]⟩, 4⟩, q) ∧
      q.storage_size = 64 ∧ q._concept = .ptr_model ⟨2, 16, [1]⟩ ∧
      (q.op_bool = some false ↔
        (⟨64, .ptr_model ⟨2, 16, [1]⟩, .ptr_model ⟨2, 16, [1]⟩
          (some ⟨⟨2, 16, [1]⟩, 4⟩)⟩ : poly_v2.unique_ptr).holdsHeap = true) :=
  C8_amended
    ⟨64, .ptr_model ⟨2, 16, [1]⟩, .ptr_model ⟨2, 16, [1]⟩ (some ⟨⟨2, 16, [1]⟩, 4⟩)⟩
    1 ⟨⟨2, 16, [1]⟩, 4⟩ rfl rfl rfl

/-- Claim C9: relocating an empty container of either variant into a
destination of any capacity leaves the destination empty — boolean conversion
false, `get` yields no reference, and the locality query reports the
local-equivalent `true`. -/
theorem C9_move_from_empty :
    (∀ (dcap : Nat) (p : poly.unique_ptr), p._storage = .empty_storage →
      (poly.unique_ptr.moveFrom dcap p).1.op_bool = false ∧
      (poly.unique_ptr.moveFrom dcap p).1.get = none ∧
      (poly.unique_ptr.moveFrom dcap p).1.is_local = true) ∧
    (∀ (dcap : Nat) (p : poly_v2.unique_ptr), p._concept = .empty_model →
      ∃ d s, poly_v2.unique_ptr.moveFrom dcap p = some (d, s) ∧
        d.op_bool = some false ∧ d.get = some none ∧ d.is_inlined = true) := by
  constructor
  · intro dcap p h
    obtain ⟨sz, st⟩ := p
    simp only at h
    subst h
    simp [poly.unique_ptr.moveFrom, poly.move_to, poly.unique_ptr.get,
      poly.Storage.get, poly.unique_ptr.op_bool, poly.unique_ptr.is_local,
      poly.Storage.is_local]
  · intro dcap p h
    obtain ⟨sz, c, m⟩ := p
    simp only at h
    subst h
    exact ⟨_, _, rfl, rfl, rfl, rfl⟩

/-- Claim C9, witness: moving an empty capacity-7 container into a capacity-50
one, in both variants. -/
theorem C9_witness :
    ((poly.unique_ptr.moveFrom 50 (poly.unique_ptr.mk0 7)).1.op_bool = false ∧
      (poly.unique_ptr.moveFrom 50 (poly.unique_ptr.mk0 7)).1.get = none ∧
      (poly.unique_ptr.moveFrom 50 (poly.unique_ptr.mk0 7)).1.is_local = true) ∧
    (∃ d s, poly_v2.unique_ptr.moveFrom 50 (poly_v2.unique_ptr.mk0 7) = some (d, s) ∧
      d.op_bool = some false ∧ d.get = some none ∧ d.is_inlined = true) :=
  ⟨C9_move_from_empty.1 50 (poly.unique_ptr.mk0 7) rfl,
   C9_move_from_empty.2 50 (poly_v2.unique_ptr.mk0 7) rfl⟩

/-- Claim C10: in `poly_v2`, every public operation preserves the invariant
that `_concept` points to the dispatch table of exactly the model kind (and
template argument) currently constructed in `_model` — so each operation's
dispatch succeeds, interpreting the storage bytes as the type actually
constructed there (`get` is defined on every valid container, and each
mutating operation or move produces only valid containers). -/
theorem C10_v2_concept_matches_model :
    (∀ cap : Nat, (poly_v2.unique_ptr.mk0 cap).valid = true) ∧
    (∀ p : poly_v2.unique_ptr, p.valid = true →
      ∃ q, p.reset0 = some q ∧ q.valid = true) ∧
    (∀ (p : poly_v2.unique_ptr) (u : Obj), p.valid = true →
      ∃ q, p.assign u = some q ∧ q.valid = true) ∧
    (∀ (p : poly_v2.unique_ptr) (ty : CType) (v : Nat), p.valid = true →
      ∃ q, p.emplace ty v = some q ∧ q.valid = true) ∧
    (∀ (p : poly_v2.unique_ptr) (sty : CType) (u : Obj), p.valid = true →
      ∃ q, p.reset_ptr sty u = some q ∧ q.valid = true) ∧
    (∀ (cap : Nat) (m : poly_v2.unique_ptr), m.valid = true →
      ∃ d s, poly_v2.unique_ptr.moveFrom cap m = some (d, s) ∧
        d.valid = true ∧ s.valid = true) ∧
    (∀ (p : poly_v2.unique_ptr) (req : Nat), p.valid = true →
      ∃ r q, p.release req = some (r, q) ∧ q.valid = true) ∧
    (∀ p : poly_v2.unique_ptr, p.valid = true → (p.get).isSome = true) := by
  refine ⟨?_, ?_, ?_, ?_, ?_, ?_, ?_, ?_⟩
  · intro cap
    simp [poly_v2.unique_ptr.mk0, poly_v2.unique_ptr.valid]
  · intro p hv
    exact ⟨_, poly_v2.reset0_of_valid p hv, by simp [poly_v2.unique_ptr.valid]⟩
  · intro p u hv
    have h0 := poly_v2.reset0_of_valid p hv
    by_cases hs : poly_v2.inlineModelSizeof u.rt ≤ p.storage_size
    · exact ⟨⟨p.storage_size, .inline_model u.rt, .inline_model u⟩,
        by simp [poly_v2.unique_ptr.assign, h0, hs],
        by simp [poly_v2.unique_ptr.valid]⟩
    · exact ⟨⟨p.storage_size, .ptr_model u.rt, .ptr_model u.rt (some u)⟩,
        by simp [poly_v2.unique_ptr.assign, h0, hs],
        by simp [poly_v2.unique_ptr.valid]⟩
  · intro p ty v hv
    have h0 := poly_v2.reset0_of_valid p hv
    by_cases hs : poly_v2.inlineModelSizeof ty ≤ p.storage_size
    · exact ⟨⟨p.storage_size, .inline_model ty, .inline_model ⟨ty, v⟩⟩,
        by simp [poly_v2.unique_ptr.emplace, h0, hs],
        by simp [poly_v2.unique_ptr.valid]⟩
    · exact ⟨⟨p.storage_size, .ptr_model ty, .ptr_model ty (some ⟨ty, v⟩)⟩,
        by simp [poly_v2.unique_ptr.emplace, h0, hs],
        by simp [poly_v2.unique_ptr.valid]⟩
  · intro p sty u hv
    have h0 := poly_v2.reset0_of_valid p hv
    by_cases hs : poly_v2.inlineModelSizeof sty ≤ p.storage_size
    · exact ⟨⟨p.storage_size, .inline_model sty, .inline_model (sliceTo sty u)⟩,
        by simp [poly_v2.unique_ptr.reset_ptr, h0, hs],
        by simp [poly_v2.unique_ptr.valid, sliceTo]⟩
    · exact ⟨⟨p.storage_size, .ptr_model sty, .ptr_model sty (some u)⟩,
        by simp [poly_v2.unique_ptr.reset_ptr, h0, hs],
        by simp [poly_v2.unique_ptr.valid]⟩
  · intro cap m hv
    obtain ⟨sz, c, mm⟩ := m
    cases c with
    | empty_model =>
        cases mm with
        | unconstructed =>
            exact ⟨_, _, rfl, by simp [poly_v2.unique_ptr.valid],
              by simp [poly_v2.unique_ptr.valid]⟩
        | inline_model u => simp [poly_v2.unique_ptr.valid] at hv
        | ptr_model sty ou => simp [poly_v2.unique_ptr.valid] at hv
    | inline_model sty =>
        cases mm with
        | unconstructed => simp [poly_v2.unique_ptr.valid] at hv
        | ptr_model sty2 ou => simp [poly_v2.unique_ptr.valid] at hv
        | inline_model u =>
            simp only [poly_v2.unique_ptr.valid, decide_eq_true_eq] at hv
            subst hv
            by_cases hs : poly_v2.inlineModelSizeof u.rt ≤ cap
            · exact ⟨⟨cap, .inline_model u.rt, .inline_model u⟩,
                ⟨sz, .inline_model u.rt, .inline_model (movedFrom u)⟩,
                by simp [poly_v2.unique_ptr.moveFrom, poly_v2._move, hs],
                by simp [poly_v2.unique_ptr.valid],
                by simp [poly_v2.unique_ptr.valid, movedFrom]⟩
            · exact ⟨⟨cap, .ptr_model u.rt, .ptr_model u.rt (some u)⟩,
                ⟨sz, .inline_model u.rt, .inline_model (movedFrom u)⟩,
                by simp [poly_v2.unique_ptr.moveFrom, poly_v2._move, hs],
                by simp [poly_v2.unique_ptr.valid],
                by simp [poly_v2.unique_ptr.valid, movedFrom]⟩
    | ptr_model sty =>
        cases mm with
        | unconstructed => simp [poly_v2.unique_ptr.valid] at hv
        | inline_model u => simp [poly_v2.unique_ptr.valid] at hv
        | ptr_model sty2 ou =>
            simp only [poly_v2.unique_ptr.valid, decide_eq_true_eq] at hv
            subst hv
            by_cases hs : poly_v2.inlineModelSizeof sty2 ≤ cap
            · exact ⟨⟨cap, .inline_model sty2,
                  .inline_model (sliceTo sty2 (ou.getD ⟨sty2, 0⟩))⟩,
                ⟨sz, .ptr_model sty2, .ptr_model sty2 (ou.map movedFrom)⟩,
                by simp [poly_v2.unique_ptr.moveFrom, poly_v2._move, hs],
                by simp [poly_v2.unique_ptr.valid, sliceTo],
                by simp [poly_v2.unique_ptr.valid]⟩
            · exact ⟨⟨cap, .ptr_model sty2, .ptr_model sty2 ou⟩,
                ⟨sz, .ptr_model sty2, .ptr_model sty2 none⟩,
                by simp [poly_v2.unique_ptr.moveFrom, poly_v2._move, hs],
                by simp [poly_v2.unique_ptr.valid],
                by simp [poly_v2.unique_ptr.valid]⟩
  · intro p req hv
    obtain ⟨sz, c, m⟩ := p
    cases c with
    | empty_model =>
        cases m with
        | unconstructed =>
            exact ⟨none, _, poly_v2.release_empty_eq sz req,
              by simp [poly_v2.unique_ptr.valid]⟩
        | inline_model u => simp [poly_v2.unique_ptr.valid] at hv
        | ptr_model sty ou => simp [poly_v2.unique_ptr.valid] at hv
    | inline_model sty =>
        cases m with
        | unconstructed => simp [poly_v2.unique_ptr.valid] at hv
        | ptr_model sty2 ou => simp [poly_v2.unique_ptr.valid] at hv
        | inline_model u =>
            simp only [poly_v2.unique_ptr.valid, decide_eq_true_eq] at hv
            subst hv
            by_cases hc : dynCastOk u.rt req = true
            · exact ⟨some u, _, by rw [poly_v2.release_inline_eq, if_pos hc],
                by simp [poly_v2.unique_ptr.valid, movedFrom]⟩
            · exact ⟨none, _, by rw [poly_v2.release_inline_eq, if_neg hc],
                by simp [poly_v2.unique_ptr.valid]⟩
    | ptr_model sty =>
        cases m with
        | unconstructed => simp [poly_v2.unique_ptr.valid] at hv
        | inline_model u => simp [poly_v2.unique_ptr.valid] at hv
        | ptr_model sty2 ou =>
            simp only [poly_v2.unique_ptr.valid, decide_eq_true_eq] at hv
            subst hv
            cases ou with
            | none =>
                exact ⟨none, _, poly_v2.release_ptr_none_eq sz sty2 req,
                  by simp [poly_v2.unique_ptr.valid]⟩
            | some u =>
                by_cases hc : dynCastOk u.rt req = true
                · exact ⟨some u, _, by rw [poly_v2.release_ptr_some_eq, if_pos hc],
                    by simp [poly_v2.unique_ptr.valid]⟩
                · exact ⟨none, _, by rw [poly_v2.release_ptr_some_eq, if_neg hc],
                    by simp [poly_v2.unique_ptr.valid]⟩
  · intro p hv
    obtain ⟨sz, c, m⟩ := p
    cases c <;> cases m <;>
      simp_all [poly_v2.unique_ptr.valid, poly_v2.unique_ptr.get, poly_v2._get]

/-- Claim C2, witness for the amended theorem: an inline payload moved in
`poly` (source stays non-empty), and a heap payload moved without refitting
in `poly_v2` (source becomes empty). -/
theorem C2_amended_witness :
    ((poly.unique_ptr.moveFrom 100 ⟨100, .inline_storage ⟨⟨1, 8, []⟩, 7⟩⟩).1.get =
        some ⟨⟨1, 8, []⟩, 7⟩ ∧
      ((poly.unique_ptr.moveFrom 100 ⟨100, .inline_storage ⟨⟨1, 8, []⟩, 7⟩⟩).2.op_bool =
          false ↔
        (⟨100, .inline_storage ⟨⟨1, 8, []⟩, 7⟩⟩ : poly.unique_ptr).is_local = false)) ∧
    (∃ d s, poly_v2.unique_ptr.moveFrom 100
        ⟨100, .ptr_model ⟨3, 1000, []⟩,
          .ptr_model ⟨3, 1000, []⟩ (some ⟨⟨3, 1000, []⟩, 9⟩)⟩ = some (d, s) ∧
      d.get = some (some ⟨⟨3, 1000, []⟩, 9⟩) ∧
      (s.op_bool = some false ↔
        (⟨100, .ptr_model ⟨3, 1000, []⟩,
          .ptr_model ⟨3, 1000, []⟩ (some ⟨⟨3, 1000, []⟩, 9⟩)⟩ :
            poly_v2.unique_ptr).holdsHeap = true ∧
        ¬ poly_v2.inlineModelSizeof (⟨3, 1000, []⟩ : CType) ≤ 100)) := by
  exact ⟨C2_amended.1 100 ⟨100, .inline_storage ⟨⟨1, 8, []⟩, 7⟩⟩ ⟨⟨1, 8, []⟩, 7⟩ rfl
      (fun sty ou cbi h => poly.Storage.noConfusion h),
    C2_amended.2 100
      ⟨100, .ptr_model ⟨3, 1000, []⟩, .ptr_model ⟨3, 1000, []⟩ (some ⟨⟨3, 1000, []⟩, 9⟩)⟩
      ⟨⟨3, 1000, []⟩, 9⟩ rfl rfl
      (fun sty ou h => by cases h; rfl)⟩

/-- Claim C10, witness: each conjunct of the invariant-preservation theorem
applied at a concrete valid container. -/
theorem C10_witness :
    (poly_v2.unique_ptr.mk0 5).valid = true ∧
    (∃ q, (⟨16, .inline_model ⟨1, 8, []⟩,
        .inline_model ⟨⟨1, 8, []⟩, 3⟩⟩ : poly_v2.unique_ptr).reset0 = some q ∧
      q.valid = true) ∧
    (∃ q, (poly_v2.unique_ptr.mk0 16).assign ⟨⟨1, 8, []⟩, 3⟩ = some q ∧
      q.valid = true) ∧
    (∃ q, (poly_v2.unique_ptr.mk0 16).emplace ⟨3, 1000, []⟩ 2 = some q ∧
      q.valid = true) ∧
    (∃ q, (poly_v2.unique_ptr.mk0 16).reset_ptr ⟨1, 8, []⟩ ⟨⟨2, 16, [1]⟩, 9⟩ = some q ∧
      q.valid = true) ∧
    (∃ d s, poly_v2.unique_ptr.moveFrom 4
        ⟨16, .inline_model ⟨1, 8, []⟩, .inline_model ⟨⟨1, 8, []⟩, 3⟩⟩ = some (d, s) ∧
      d.valid = true ∧ s.valid = true) ∧
    (∃ r q, (⟨16, .inline_model ⟨1, 8, []⟩,
        .inline_model ⟨⟨1, 8, []⟩, 3⟩⟩ : poly_v2.unique_ptr).release 1 = some (r, q) ∧
      q.valid = true) ∧
    ((⟨16, .inline_model ⟨1, 8, []⟩,
        .inline_model ⟨⟨1, 8, []⟩, 3⟩⟩ : poly_v2.unique_ptr).get).isSome = true :=
  ⟨C10_v2_concept_matches_model.1 5,
   C10_v2_concept_matches_model.2.1 _ rfl,
   C10_v2_concept_matches_model.2.2.1 _ _ rfl,
   C10_v2_concept_matches_model.2.2.2.1 _ _ _ rfl,
   C10_v2_concept_matches_model.2.2.2.2.1 _ _ _ rfl,
   C10_v2_concept_matches_model.2.2.2.2.2.1 4 _ rfl,
   C10_v2_concept_matches_model.2.2.2.2.2.2.1 _ 1 rfl,
   C10_v2_concept_matches_model.2.2.2.2.2.2.2 _ rfl⟩
